import Mathlib

/-!
Verification of the SalesMate product-recommendation engine and
conversation state machine, shallowly embedded from the Python source
(`src/services/product/service.py`, `src/services/product/repository.py`,
`src/models/product/schema.py`, `src/models/product/product.py`,
`src/models/user/user.py`, `src/models/conversation/conversation.py`,
`src/services/llm/service.py`, `src/services/conversation/service.py`).

Currency amounts (Python `Decimal`) and scores (Python `float`, always a
multiple of 1/2 here) are embedded as `ℚ`; timestamps as `Nat`.
-/

namespace SalesMate

/-- Models Python `list.startswith` on character lists: `chars_begins_with hay needle`
is true when `needle` is an initial segment of `hay`. -/
def chars_begins_with : List Char → List Char → Bool
  | _, [] => true
  | [], _ :: _ => false
  | h :: hs, n :: ns => h == n && chars_begins_with hs ns

/-- Models Python substring search: true when `needle` occurs contiguously in `hay`. -/
def chars_contains : List Char → List Char → Bool
  | [], needle => needle.isEmpty
  | h :: hs, needle => chars_begins_with (h :: hs) needle || chars_contains hs needle

/-- Models the Python expression `needle in hay` on strings. -/
def py_str_in (needle hay : String) : Bool :=
  chars_contains hay.data needle.data

/-- Models Python `str.lower()` (the catalog and persona data are ASCII, where
per-character lowercasing coincides with Python's case folding). -/
def py_lower (s : String) : String :=
  ⟨s.data.map Char.toLower⟩

/-- `StockStatus` from `src/models/product/schema.py`. -/
inductive StockStatus
  | in_stock
  | out_of_stock
  | low_stock
  | discontinued
  | pre_order
deriving DecidableEq, Repr

/-- `PriceTier` from `src/models/product/schema.py`. -/
inductive PriceTier
  | budget
  | mid_range
  | premium
  | luxury
deriving DecidableEq, Repr

/-- `ProductPriceSchema` from `src/models/product/schema.py` (validated fields only;
`Decimal` embedded as `ℚ`). -/
structure ProductPriceSchema where
  price : ℚ
  original_price : ℚ
  currency : String
  discount_percentage : Int
deriving DecidableEq, Repr

/-- `is_on_sale` property of `ProductPriceSchema`. -/
def ProductPriceSchema.is_on_sale (s : ProductPriceSchema) : Bool :=
  decide (s.discount_percentage > 0)

/-- `ProductStockSchema` from `src/models/product/schema.py`. Quantities are `Int`
because the Python constructor must reject negative inputs. -/
structure ProductStockSchema where
  status : StockStatus
  quantity : Int
  reorder_level : Int
deriving DecidableEq, Repr

/-- The `__post_init__` validation and status normalization of `ProductStockSchema`:
negative quantity or reorder level raises; quantity 0 forces `out_of_stock`;
a positive quantity at or below the reorder level downgrades `in_stock` to
`low_stock`. -/
def mk_product_stock_schema (status : StockStatus) (quantity reorder_level : Int) :
    Except String ProductStockSchema :=
  if quantity < 0 then .error "Stock quantity cannot be negative"
  else if reorder_level < 0 then .error "Reorder level cannot be negative"
  else
    let status1 :=
      if quantity = 0 ∧ status ≠ StockStatus.out_of_stock then StockStatus.out_of_stock
      else if 0 < quantity ∧ quantity ≤ reorder_level ∧ status = StockStatus.in_stock then
        StockStatus.low_stock
      else status
    .ok ⟨status1, quantity, reorder_level⟩

/-- `is_available` property of `ProductStockSchema`. -/
def ProductStockSchema.is_available (s : ProductStockSchema) : Bool :=
  decide (s.status = StockStatus.in_stock ∨ s.status = StockStatus.low_stock)

/-- `ProductMetadataSchema` fields used by the recommendation engine. -/
structure ProductMetadataSchema where
  rating : ℚ
  review_count : Int
  is_featured : Bool
  is_new_arrival : Bool
  tags : List String
deriving DecidableEq, Repr

/-- `Product` from `src/models/product/product.py`: a record over the validated
schemas with the descriptive fields the engine reads. -/
structure Product where
  product_id : String
  sku : String
  name : String
  category : String
  subcategory : String
  brand : String
  description : String
  price_info : ProductPriceSchema
  stock_info : ProductStockSchema
  features : List String
  price_tier : PriceTier
  metadata : ProductMetadataSchema
deriving DecidableEq, Repr

namespace Product

/-- `price` property. -/
def price (p : Product) : ℚ := p.price_info.price

/-- `is_on_sale` property. -/
def is_on_sale (p : Product) : Bool := p.price_info.is_on_sale

/-- `is_available` property. -/
def is_available (p : Product) : Bool := p.stock_info.is_available

/-- `rating` property. -/
def rating (p : Product) : ℚ := p.metadata.rating

/-- `is_featured` property. -/
def is_featured (p : Product) : Bool := p.metadata.is_featured

/-- `tags` property. -/
def tags (p : Product) : List String := p.metadata.tags

/-- `matches_category` from `product.py`: case-insensitive equality. -/
def matches_category (p : Product) (category : String) : Bool :=
  py_lower p.category == py_lower category

/-- `matches_subcategory` from `product.py`. -/
def matches_subcategory (p : Product) (subcategory : String) : Bool :=
  py_lower p.subcategory == py_lower subcategory

/-- `matches_brand` from `product.py`. -/
def matches_brand (p : Product) (brand : String) : Bool :=
  py_lower p.brand == py_lower brand

/-- `matches_price_tier` from `product.py`. -/
def matches_price_tier (p : Product) (tier : PriceTier) : Bool :=
  decide (p.price_tier = tier)

/-- `has_feature_keyword` from `product.py`: case-insensitive substring search over
the feature list, the name, and the description. -/
def has_feature_keyword (p : Product) (keyword : String) : Bool :=
  let k := py_lower keyword
  p.features.any (fun f => py_str_in k (py_lower f))
    || py_str_in k (py_lower p.name)
    || py_str_in k (py_lower p.description)

/-- `is_within_budget` from `product.py`. -/
def is_within_budget (p : Product) (min_price max_price : ℚ) : Bool :=
  decide (min_price ≤ p.price ∧ p.price ≤ max_price)

end Product

/-- `User` from `src/models/user/user.py`, restricted to the product-preference
fields the recommendation engine reads. The budget range dictionary is embedded
as explicit min/max plus an optional sweet spot. -/
structure User where
  persona_id : String
  categories_of_interest : List String
  key_features_valued : List String
  budget_min : ℚ
  budget_max : ℚ
  sweet_spot : Option ℚ
deriving DecidableEq, Repr

namespace User

/-- `budget_sweet_spot` property: `budget_range.get("sweet_spot", budget_range["max"])`. -/
def budget_sweet_spot (u : User) : ℚ :=
  u.sweet_spot.getD u.budget_max

/-- `is_interested_in_category` from `user.py`: case-insensitive membership. -/
def is_interested_in_category (u : User) (category : String) : Bool :=
  (u.categories_of_interest.map py_lower).contains (py_lower category)

end User

/-- Models the Python slice `xs[:n]` for an `int` bound `n`: a nonnegative bound
keeps the first `n` elements, a negative bound drops the last `-n`. -/
def py_slice_take (n : Int) (xs : List α) : List α :=
  if 0 ≤ n then xs.take n.toNat else xs.take (xs.length - (-n).toNat)

/-- The comparison used by `scored.sort(key=lambda x: x[1], reverse=True)`:
descending by score. -/
def score_ge (a b : Product × ℚ) : Prop := b.2 ≤ a.2

instance : DecidableRel score_ge := fun a b => inferInstanceAs (Decidable (b.2 ≤ a.2))

instance : IsTotal (Product × ℚ) score_ge := ⟨fun a b => le_total b.2 a.2⟩

instance : IsTrans (Product × ℚ) score_ge := ⟨fun _ _ _ hab hbc => le_trans hbc hab⟩

/-- Models CPython `list.sort(key=lambda x: x[1], reverse=True)`: a stable sort
placing higher scores first. Stable sorting is a unique function of the input,
so the stable `insertionSort` under the total preorder `score_ge` is exactly
the Python in-place sort. -/
def py_sort_by_score_desc (xs : List (Product × ℚ)) : List (Product × ℚ) :=
  xs.insertionSort score_ge

/-- `ProductService._calculate_product_score_for_user` from
`src/services/product/service.py`, written as the sum the sequential
`score +=` statements compute. The feature loop adds 3.0 per valued feature
matched, hence 3 times the count of matching features. -/
def calculate_product_score_for_user (p : Product) (u : User) : ℚ :=
  if p.is_within_budget u.budget_min u.budget_max then
    10
    + (if p.price ≤ u.budget_sweet_spot then 5 else 0)
    + (if u.is_interested_in_category p.category then 15 else 0)
    + 3 * ((u.key_features_valued.filter (fun f => p.has_feature_keyword f)).length : ℚ)
    + (if p.is_featured then 2 else 0)
    + (if p.is_on_sale then 3 else 0)
    + (if p.rating ≥ 4.5 then 4 else if p.rating ≥ 4.0 then 2 else 0)
  else 0

/-- `ProductRepository.get_available_products`: the catalog (in source order)
restricted to available products. -/
def get_available_products (all_products : List Product) : List Product :=
  all_products.filter Product.is_available

/-- `ProductService.get_recommendations_for_user`: score every available product,
stably sort by score descending, return the first `limit`. -/
def get_recommendations_for_user (all_products : List Product) (user : User)
    (limit : Int) : List Product :=
  let products := get_available_products all_products
  let scored_products := products.map (fun p => (p, calculate_product_score_for_user p user))
  (py_slice_take limit (py_sort_by_score_desc scored_products)).map Prod.fst

/-- The price-difference banding inside `_calculate_similarity_score`:
the sequential `if/elif` chain over the absolute price difference. -/
def price_band_bonus (price_diff : ℚ) : ℚ :=
  if price_diff < 50 then 8
  else if price_diff < 100 then 5
  else if price_diff < 200 then 2
  else 0

/-- `ProductService._calculate_similarity_score` from
`src/services/product/service.py`. Python `set(tags1) & set(tags2)` is embedded
as the `Finset` intersection of the two tag lists. -/
def calculate_similarity_score (product1 product2 : Product) : ℚ :=
  (if product1.matches_subcategory product2.subcategory then 10 else 0)
  + (if product1.matches_brand product2.brand then 5 else 0)
  + price_band_bonus |product1.price - product2.price|
  + (if product1.matches_price_tier product2.price_tier then 3 else 0)
  + ((product1.tags.toFinset ∩ product2.tags.toFinset).card : ℚ) * 2

/-- The candidate loop of `ProductService.get_similar_products`: available
products other than the given one that match its category. -/
def similar_candidates (all_products : List Product) (product : Product) : List Product :=
  (get_available_products all_products).filter
    (fun p => !(p.product_id == product.product_id) && p.matches_category product.category)

/-- `ProductService.get_similar_products`: score the candidates, stably sort
descending, return the first `limit`. -/
def get_similar_products (all_products : List Product) (product : Product)
    (limit : Int) : List Product :=
  let similar := (similar_candidates all_products product).map
    (fun p => (p, calculate_similarity_score product p))
  (py_slice_take limit (py_sort_by_score_desc similar)).map Prod.fst

/-- `ProductRepository.get_products_by_category`: catalog entries matching the
category (no availability restriction at the repository level). -/
def get_products_by_category (all_products : List Product) (category : String) :
    List Product :=
  all_products.filter (fun p => p.matches_category category)

/-- `ProductService.get_products_by_categories`: concatenate the per-category
repository lists in request order, filter to available products, then apply
`products[:limit]` — but only when `limit` is truthy in Python, so `None` and
`0` both mean no truncation. -/
def get_products_by_categories (all_products : List Product) (categories : List String)
    (limit : Option Int) : List Product :=
  let products := categories.flatMap (fun category => get_products_by_category all_products category)
  let products1 := products.filter Product.is_available
  match limit with
  | some l => if l ≠ 0 then py_slice_take l products1 else products1
  | none => products1

/-- `MessageRole` from `src/models/conversation/schema.py`. -/
inductive MessageRole
  | system
  | user
  | assistant
deriving DecidableEq, Repr

/-- `Message` from `src/models/conversation/message.py`; `datetime.now()` values
are embedded as `Nat` timestamps. -/
structure Message where
  role : MessageRole
  content : String
  timestamp : Nat
deriving DecidableEq, Repr

/-- `is_system_message` from `message.py`. -/
def Message.is_system_message (m : Message) : Bool :=
  decide (m.role = MessageRole.system)

/-- `ConversationStatus` from `src/models/conversation/schema.py`. -/
inductive ConversationStatus
  | active
  | completed
  | abandoned
deriving DecidableEq, Repr

/-- `Conversation` from `src/models/conversation/conversation.py` over its schema
fields; the message list is append-only through the operations below. -/
structure Conversation where
  conversation_id : String
  user_persona_id : String
  messages : List Message
  status : ConversationStatus
  started_at : Nat
  ended_at : Option Nat
deriving DecidableEq, Repr

namespace Conversation

/-- `is_active` property. -/
def is_active (c : Conversation) : Bool :=
  decide (c.status = ConversationStatus.active)

/-- `Conversation.create_new` from `conversation.py`. -/
def create_new (conversation_id user_persona_id : String) (now : Nat) : Conversation :=
  ⟨conversation_id, user_persona_id, [], ConversationStatus.active, now, none⟩

/-- `get_last_n_messages` from `conversation.py`: `messages[-n:]` guarded by
`n <= 0`, which yields the empty list. -/
def get_last_n_messages (c : Conversation) (n : Int) : List Message :=
  if n ≤ 0 then []
  else c.messages.drop (c.messages.length - n.toNat)

/-- `get_context_window` from `conversation.py`: the last `window_size` messages
with system messages filtered out. -/
def get_context_window (c : Conversation) (window_size : Int) : List Message :=
  (c.get_last_n_messages window_size).filter (fun msg => !msg.is_system_message)

/-- `add_message` from `conversation.py`: raises on an inactive conversation,
otherwise appends to the message list. -/
def add_message (c : Conversation) (m : Message) : Except String Conversation :=
  if c.is_active then .ok { c with messages := c.messages ++ [m] }
  else .error "Cannot add message to inactive conversation"

/-- `add_user_message` from `conversation.py` (the created message carries the
current time). -/
def add_user_message (c : Conversation) (content : String) (now : Nat) :
    Except String Conversation :=
  c.add_message ⟨MessageRole.user, content, now⟩

/-- `add_assistant_message` from `conversation.py`. -/
def add_assistant_message (c : Conversation) (content : String) (now : Nat) :
    Except String Conversation :=
  c.add_message ⟨MessageRole.assistant, content, now⟩

/-- `add_system_message` from `conversation.py`. -/
def add_system_message (c : Conversation) (content : String) (now : Nat) :
    Except String Conversation :=
  c.add_message ⟨MessageRole.system, content, now⟩

/-- `complete_conversation` from `conversation.py`: only an active conversation
may complete; the end timestamp is `datetime.now()`, passed in as `now`. -/
def complete_conversation (c : Conversation) (now : Nat) : Except String Conversation :=
  if c.is_active then
    .ok { c with status := ConversationStatus.completed, ended_at := some now }
  else .error "Conversation is already inactive"

/-- `abandon_conversation` from `conversation.py`. -/
def abandon_conversation (c : Conversation) (now : Nat) : Except String Conversation :=
  if c.is_active then
    .ok { c with status := ConversationStatus.abandoned, ended_at := some now }
  else .error "Conversation is already inactive"

end Conversation

/-- The rate-limit test inside `_call_openai_api_with_retry`
(`src/services/llm/service.py`): `"rate limit" in last_error.lower()`. -/
def is_rate_limit_error (e : String) : Bool :=
  py_str_in "rate limit" (py_lower e)

/-- Outcome of the retry wrapper, instrumented with the total time slept between
attempts and the number of API calls made. -/
structure RetryResult where
  outcome : Except String String
  total_sleep : ℚ
  attempts : Nat
deriving Repr

/-- The body of the `for attempt in range(1, max_retries + 1)` loop of
`_call_openai_api_with_retry`, recursing over the remaining attempt numbers.
`api attempt` models the outcome of `_call_openai_api` on that attempt; an
exhausted loop raises the final `Failed after ... attempts` error carrying the
last error text. Sleeping `2 ** attempt` (plus `attempt * 0.5` for rate-limit
errors) is recorded in `total_sleep`. -/
def retry_loop (api : Nat → Except String String) (max_retries : Nat) :
    List Nat → Option String → RetryResult
  | [], last_error => ⟨.error ("Failed after max attempts. Last error: "
      ++ last_error.getD "None"), 0, 0⟩
  | attempt :: rest, _ =>
    match api attempt with
    | .ok result => ⟨.ok result, 0, 1⟩
    | .error e =>
      if is_rate_limit_error e && decide (attempt < max_retries) then
        let r := retry_loop api max_retries rest (some e)
        ⟨r.outcome, (2 ^ attempt + (attempt : ℚ) / 2) + r.total_sleep, r.attempts + 1⟩
      else if attempt < max_retries then
        let r := retry_loop api max_retries rest (some e)
        ⟨r.outcome, (2 ^ attempt : ℚ) + r.total_sleep, r.attempts + 1⟩
      else ⟨.error e, 0, 1⟩

/-- `LLMService._call_openai_api_with_retry`: run the loop over attempts
`1, ..., max_retries`. -/
def call_openai_api_with_retry (api : Nat → Except String String) (max_retries : Nat) :
    RetryResult :=
  retry_loop api max_retries (List.range' 1 max_retries) none

/-- `ConversationService._determine_conversation_stage`
(`src/services/conversation/service.py`): the `stage_mapping` dictionary lookup
with default `"discovery"`. -/
def determine_conversation_stage (intent : String) : String :=
  if intent = "browsing" then "discovery"
  else if intent = "asking_question" then "discovery"
  else if intent = "requesting_recommendation" then "recommendation"
  else if intent = "comparing_products" then "comparison"
  else if intent = "ready_to_buy" then "closing"
  else if intent = "objection" then "objection_handling"
  else "discovery"

/-- The intent-analysis record returned by `LLMService.analyze_user_intent`,
which never raises (it degrades to the unknown intent on any failure). -/
structure IntentAnalysis where
  intent : String
  categories : List String
  budget : Option ℚ
deriving DecidableEq, Repr

/-- `ConversationService._get_relevant_products`: category-filtered retrieval
when the analysis named categories (Python `if categories:` — empty list is
falsy), else personalized recommendations; then `if budget:` (0 is falsy)
filters to `price <= budget`. -/
def get_relevant_products (all_products : List Product) (user : User)
    (ia : IntentAnalysis) (recommendation_limit : Int) : List Product :=
  let products :=
    if ia.categories ≠ [] then
      get_products_by_categories all_products ia.categories (some recommendation_limit)
    else
      get_recommendations_for_user all_products user recommendation_limit
  match ia.budget with
  | some b => if b ≠ 0 then products.filter (fun p => decide (p.price ≤ b)) else products
  | none => products

/-- `ConversationService.process_user_message`: append the user message, analyze
intent (never fails), pick the stage and candidate products, call the external
LLM (`generate` models the outcome of `LLMService.generate_response`, whose
failures are `LLMServiceError`s), and append the reply as an assistant message.
The returned pair is the conversation state after the call together with the
outcome: an `LLMServiceError` is wrapped as `ConversationServiceError`
(`"LLM service error: ..."`), any other exception as
`"Failed to process user message: ..."`. -/
def process_user_message (all_products : List Product) (user : User)
    (c : Conversation) (user_message : String) (t_user : Nat)
    (analysis : IntentAnalysis) (generate : Except String String)
    (recommendation_limit : Int) (t_assistant : Nat) :
    Conversation × Except String String :=
  match c.add_user_message user_message t_user with
  | .error e => (c, .error ("Failed to process user message: " ++ e))
  | .ok c1 =>
    let _conversation_stage := determine_conversation_stage analysis.intent
    let _available_products := get_relevant_products all_products user analysis recommendation_limit
    match generate with
    | .error e => (c1, .error ("LLM service error: " ++ e))
    | .ok assistant_response =>
      match c1.add_assistant_message assistant_response t_assistant with
      | .error e => (c1, .error ("Failed to process user message: " ++ e))
      | .ok c2 => (c2, .ok assistant_response)

/-!
Concrete data for the worked examples: a persona with budget range
[100, 500] and sweet spot 300 who is interested in electronics and values
the features "fast" and "light", and in-stock products differing only in
price. The rating 4.6 is written as an explicit reduced fraction so that
equality on products is kernel-computable.
-/

/-- The rating 4.6 = 23/5 as an explicit reduced rational. -/
def rating_4_6 : ℚ := ⟨23, 5, by decide, by decide⟩

/-- An in-stock stock record (quantity 10, reorder level 2). -/
def demo_stock : ProductStockSchema := ⟨StockStatus.in_stock, 10, 2⟩

/-- A family of electronics products matching the persona below on category and
on two valued features, featured, discounted 10 percent, rated 4.6,
differing only in price. -/
def mk_demo (pid : String) (price original_price : ℚ) : Product :=
  { product_id := pid
    sku := pid
    name := "noise cancelling headphones"
    category := "electronics"
    subcategory := "audio"
    brand := "acme"
    description := "over ear wireless headphones"
    price_info := ⟨price, original_price, "USD", 10⟩
    stock_info := demo_stock
    features := ["fast charge", "light frame"]
    price_tier := PriceTier.mid_range
    metadata := ⟨rating_4_6, 100, true, false, ["wireless", "audio"]⟩ }

/-- The persona of the worked examples: budget [100, 500], sweet spot 300. -/
def demo_user : User :=
  { persona_id := "persona-1"
    categories_of_interest := ["electronics"]
    key_features_valued := ["fast", "light"]
    budget_min := 100
    budget_max := 500
    sweet_spot := some 300 }

/-- The 200-dollar product of the scoring example. -/
def p200 : Product := mk_demo "p200" 200 250

/-- The otherwise identical 350-dollar product (above the sweet spot). -/
def p350 : Product := mk_demo "p350" 350 400

/-- An otherwise identical 600-dollar product (outside the budget range). -/
def p600 : Product := mk_demo "p600" 600 650

/-- A 120-dollar product sharing subcategory, brand and both tags with the
demo products but in a different price tier. -/
def q_tier : Product := { mk_demo "q1" 120 150 with price_tier := PriceTier.premium }

/-- A conversation already in the terminal `completed` state. -/
def demo_done : Conversation :=
  ⟨"conv-1", "persona-1", [], ConversationStatus.completed, 5, some 9⟩

/-- A freshly created (active, empty) conversation started at time 5. -/
def demo_active : Conversation := Conversation.create_new "conv-2" "persona-1" 5

/-- The stock record produced by normalizing `in_stock` with quantity 3 at
reorder level 5. -/
def demo_low : ProductStockSchema := ⟨StockStatus.low_stock, 3, 5⟩

/-- The similarity-candidate list as the specification words it: the available
products in the same category, excluding the product itself. -/
def spec_similar_candidates (all_products : List Product) (product : Product) : List Product :=
  all_products.filter
    (fun p => p.is_available && p.matches_category product.category
      && !(p.product_id == product.product_id))

/-- Category-filtered retrieval as the specification words it: the
concatenation, in request order, of the per-category match lists each
restricted to available products. -/
def spec_category_retrieval (all_products : List Product) (categories : List String) :
    List Product :=
  categories.flatMap
    (fun category =>
      (all_products.filter (fun p => p.matches_category category)).filter Product.is_available)

theorem rating_4_6_eq : rating_4_6 = 23/5 := by
  rw [rating_4_6, Rat.mk'_eq_divInt, Rat.divInt_eq_div]; norm_num

theorem score_p200 : calculate_product_score_for_user p200 demo_user = 45 := by
  rw [calculate_product_score_for_user,
    if_pos (by decide : p200.is_within_budget demo_user.budget_min demo_user.budget_max = true),
    if_pos (by decide : p200.price ≤ demo_user.budget_sweet_spot),
    if_pos (by decide : demo_user.is_interested_in_category p200.category = true),
    if_pos (by decide : p200.is_featured = true),
    if_pos (by decide : p200.is_on_sale = true),
    if_pos (show p200.rating ≥ 4.5 by
      show rating_4_6 ≥ (4.5 : ℚ)
      rw [rating_4_6_eq]; norm_num),
    show (demo_user.key_features_valued.filter (fun f => p200.has_feature_keyword f)).length
      = 2 from by decide]
  norm_num

theorem score_p350 : calculate_product_score_for_user p350 demo_user = 40 := by
  rw [calculate_product_score_for_user,
    if_pos (by decide : p350.is_within_budget demo_user.budget_min demo_user.budget_max = true),
    if_neg (by decide : ¬ (p350.price ≤ demo_user.budget_sweet_spot)),
    if_pos (by decide : demo_user.is_interested_in_category p350.category = true),
    if_pos (by decide : p350.is_featured = true),
    if_pos (by decide : p350.is_on_sale = true),
    if_pos (show p350.rating ≥ 4.5 by
      show rating_4_6 ≥ (4.5 : ℚ)
      rw [rating_4_6_eq]; norm_num),
    show (demo_user.key_features_valued.filter (fun f => p350.has_feature_keyword f)).length
      = 2 from by decide]
  norm_num

theorem score_p600 : calculate_product_score_for_user p600 demo_user = 0 := by
  rw [calculate_product_score_for_user,
    if_neg (by decide : ¬ (p600.is_within_budget demo_user.budget_min demo_user.budget_max = true))]

theorem recs_demo_pair : get_recommendations_for_user [p350, p200] demo_user 5 = [p200, p350] := by
  rw [get_recommendations_for_user,
    show get_available_products [p350, p200] = [p350, p200] from by decide,
    List.map_cons, List.map_cons, List.map_nil, score_p200, score_p350]
  decide

theorem recs_p600_only : get_recommendations_for_user [p600] demo_user 1 = [p600] := by
  rw [get_recommendations_for_user,
    show get_available_products [p600] = [p600] from by decide,
    List.map_cons, List.map_nil, score_p600]
  decide

/-- C1 counterexample: with the demo persona (budget [100, 500]) and a catalog
holding one available product priced 600, `get_recommendations_for_user`
returns that out-of-budget product, so the recommendation list does contain a
product priced outside [budget_min, budget_max]. -/
theorem C1_counterexample :
    get_recommendations_for_user [p600] demo_user 1 = [p600] ∧
    ¬ (demo_user.budget_min ≤ p600.price ∧ p600.price ≤ demo_user.budget_max) := by
  refine ⟨?_, by decide⟩
  rw [get_recommendations_for_user,
    show get_available_products [p600] = [p600] from by decide,
    List.map_cons, List.map_nil,
    show calculate_product_score_for_user p600 demo_user = 0 from by
      rw [calculate_product_score_for_user,
        if_neg (by decide :
          ¬ (p600.is_within_budget demo_user.budget_min demo_user.budget_max = true))]]
  decide

/-- C1 (amended): a product priced outside the persona's
[budget_min, budget_max] scores 0 while every within-budget product scores at
least 10, but the zero-scored products are NOT removed from the ranking, so
such a product can still appear in the returned list when the limit exceeds
the number of positively scored products — witnessed by the single
out-of-budget product being returned. -/
theorem C1_budget_gate_amended :
    (∀ (p : Product) (u : User),
        p.is_within_budget u.budget_min u.budget_max = false →
        calculate_product_score_for_user p u = 0) ∧
    (∀ (p : Product) (u : User),
        p.is_within_budget u.budget_min u.budget_max = true →
        10 ≤ calculate_product_score_for_user p u) ∧
    (get_recommendations_for_user [p600] demo_user 1 = [p600] ∧
      p600.is_within_budget demo_user.budget_min demo_user.budget_max = false) := by
  refine ⟨?_, ?_, recs_p600_only, by decide⟩
  · intro p u h
    rw [calculate_product_score_for_user, if_neg (by simp [h])]
  · intro p u h
    rw [calculate_product_score_for_user, if_pos h]
    have hn : (0:ℚ)
        ≤ ((u.key_features_valued.filter (fun f => p.has_feature_keyword f)).length : ℚ) :=
      Nat.cast_nonneg _
    split_ifs <;> linarith

/-- C1 witness: the amended theorem applied to the concrete out-of-budget
product and persona. -/
theorem C1_budget_gate_amended_witness :
    calculate_product_score_for_user p600 demo_user = 0 :=
  C1_budget_gate_amended.1 p600 demo_user (by decide)

/-- C2 counterexample: the product of the worked example (price 200, within
[100, 500] with sweet spot 300, matching category and 2 valued features,
featured, on sale, rated 4.6) does not score 40, and its 350-dollar variant
does not score 34 — the claimed totals drop the +5 sweet-spot bonus the code
grants and miscount the second product. -/
theorem C2_counterexample :
    calculate_product_score_for_user p200 demo_user ≠ 40 ∧
    calculate_product_score_for_user p350 demo_user ≠ 34 := by
  rw [score_p200, score_p350]
  norm_num

/-- C2 (amended): the 200-dollar product scores 45
(10 budget + 5 sweet-spot + 15 category + 3·2 features + 2 featured + 3 sale
+ 4 rating), the otherwise identical 350-dollar product (above the sweet spot)
scores 40, and the 350-dollar product ranks below the 200-dollar one in the
personalized recommendation order. -/
theorem C2_scoring_example_amended :
    calculate_product_score_for_user p200 demo_user = 45 ∧
    calculate_product_score_for_user p350 demo_user = 40 ∧
    get_recommendations_for_user [p350, p200] demo_user 5 = [p200, p350] :=
  ⟨score_p200, score_p350, recs_demo_pair⟩

/-- C3: the similarity candidates are exactly the available products in the
same category excluding the product itself, and two products sharing
subcategory and brand with exactly 2 common tags (and differing price tiers)
score 10 + 5 + 2·2 = 19 plus the price-band bonus for their absolute price
difference. -/
theorem C3_similarity_spec :
    (∀ (all_products : List Product) (product : Product),
        similar_candidates all_products product
          = spec_similar_candidates all_products product) ∧
    (∀ (p1 p2 : Product),
        p1.matches_subcategory p2.subcategory = true →
        p1.matches_brand p2.brand = true →
        (p1.tags.toFinset ∩ p2.tags.toFinset).card = 2 →
        p1.matches_price_tier p2.price_tier = false →
        calculate_similarity_score p1 p2 = 19 + price_band_bonus |p1.price - p2.price|) := by
  constructor
  · intro all product
    rw [similar_candidates, spec_similar_candidates, get_available_products, List.filter_filter]
    apply List.filter_congr
    intro a _
    cases Product.is_available a <;>
      cases a.matches_category product.category <;>
        cases a.product_id == product.product_id <;> rfl
  · intro p1 p2 h1 h2 h3 h4
    rw [calculate_similarity_score, if_pos h1, if_pos h2, if_neg (by simp [h4]), h3]
    push_cast
    ring

/-- C3 witness: the particular 19-plus-band score at two concrete products
sharing subcategory, brand and exactly the tags wireless and audio, in
different price tiers. -/
theorem C3_similarity_spec_witness :
    calculate_similarity_score p200 q_tier
      = 19 + price_band_bonus |p200.price - q_tier.price| :=
  C3_similarity_spec.2 p200 q_tier (by decide) (by decide) (by decide) (by decide)

/-- C4: on an inactive conversation every message-adding operation and both
terminating operations fail with the invalid-state error; on an active
conversation, completing or abandoning at a time `now` not before the start
succeeds, moves the status to the terminal state, and stamps
`ended_at = now ≥ started_at`. -/
theorem C4_conversation_lifecycle :
    (∀ (c : Conversation) (m : Message), c.is_active = false →
        c.add_message m = .error "Cannot add message to inactive conversation") ∧
    (∀ (c : Conversation) (content : String) (now : Nat), c.is_active = false →
        c.add_user_message content now = .error "Cannot add message to inactive conversation" ∧
        c.add_assistant_message content now
          = .error "Cannot add message to inactive conversation" ∧
        c.add_system_message content now
          = .error "Cannot add message to inactive conversation") ∧
    (∀ (c : Conversation) (now : Nat), c.is_active = false →
        c.complete_conversation now = .error "Conversation is already inactive" ∧
        c.abandon_conversation now = .error "Conversation is already inactive") ∧
    (∀ (c : Conversation) (now : Nat), c.is_active = true → c.started_at ≤ now →
        c.complete_conversation now
          = .ok { c with status := ConversationStatus.completed, ended_at := some now } ∧
        c.abandon_conversation now
          = .ok { c with status := ConversationStatus.abandoned, ended_at := some now } ∧
        (∀ c2 : Conversation, c.complete_conversation now = .ok c2 →
          c2.status ≠ ConversationStatus.active ∧
            ∃ e, c2.ended_at = some e ∧ c2.started_at ≤ e) ∧
        (∀ c2 : Conversation, c.abandon_conversation now = .ok c2 →
          c2.status ≠ ConversationStatus.active ∧
            ∃ e, c2.ended_at = some e ∧ c2.started_at ≤ e)) := by
  refine ⟨?_, ?_, ?_, ?_⟩
  · intro c m h
    rw [Conversation.add_message, if_neg (by simp [h])]
  · intro c content now h
    refine ⟨?_, ?_, ?_⟩ <;>
      simp [Conversation.add_user_message, Conversation.add_assistant_message,
        Conversation.add_system_message, Conversation.add_message, h]
  · intro c now h
    constructor <;>
      simp [Conversation.complete_conversation, Conversation.abandon_conversation, h]
  · intro c now h hle
    refine ⟨by simp [Conversation.complete_conversation, h],
      by simp [Conversation.abandon_conversation, h], ?_, ?_⟩
    · intro c2 hc2
      simp only [Conversation.complete_conversation, h, if_true, Except.ok.injEq] at hc2
      subst hc2
      exact ⟨by simp, now, rfl, hle⟩
    · intro c2 hc2
      simp only [Conversation.abandon_conversation, h, if_true, Except.ok.injEq] at hc2
      subst hc2
      exact ⟨by simp, now, rfl, hle⟩

/-- C4 witness: the lifecycle theorem applied to a concrete completed
conversation (message adding and completion fail) and to a concrete active
conversation completed at time 7 ≥ its start time 5. -/
theorem C4_conversation_lifecycle_witness :
    demo_done.add_message ⟨MessageRole.user, "hi", 6⟩
      = .error "Cannot add message to inactive conversation" ∧
    demo_done.complete_conversation 9 = .error "Conversation is already inactive" ∧
    demo_active.complete_conversation 7
      = .ok { demo_active with status := ConversationStatus.completed, ended_at := some 7 } :=
  ⟨C4_conversation_lifecycle.1 demo_done ⟨MessageRole.user, "hi", 6⟩ (by decide),
   (C4_conversation_lifecycle.2.2.1 demo_done 9 (by decide)).1,
   (C4_conversation_lifecycle.2.2.2 demo_active 7 (by decide) (by decide)).1⟩

/-- C5: for every conversation and window size, the context window contains no
system-role message, has at most `n` messages (reading a nonpositive `n` as
zero), is a subsequence of the message list (chronological order preserved),
and equals the last `n` messages with system messages filtered out. -/
theorem C5_context_window (c : Conversation) (n : Int) :
    (c.get_context_window n).all (fun m => !m.is_system_message) = true ∧
    (c.get_context_window n).length ≤ n.toNat ∧
    List.Sublist (c.get_context_window n) c.messages ∧
    c.get_context_window n
      = (c.get_last_n_messages n).filter (fun m => !m.is_system_message) := by
  have hlast : List.Sublist (c.get_last_n_messages n) c.messages := by
    rw [Conversation.get_last_n_messages]
    split
    · exact List.nil_sublist _
    · exact List.drop_sublist _ _
  have hlen : (c.get_last_n_messages n).length ≤ n.toNat := by
    rw [Conversation.get_last_n_messages]
    split
    · simp
    · rw [List.length_drop]
      omega
  refine ⟨?_, ?_, ?_, rfl⟩
  · rw [List.all_eq_true]
    intro m hm
    rw [Conversation.get_context_window] at hm
    exact (List.mem_filter.mp hm).2
  · calc (c.get_context_window n).length
        ≤ (c.get_last_n_messages n).length := List.length_filter_le _ _
      _ ≤ n.toNat := hlen
  · exact (List.filter_sublist _).trans hlast

theorem retry_loop_attempts_le (api : Nat → Except String String) (m : Nat) :
    ∀ (l : List Nat) (le : Option String), (retry_loop api m l le).attempts ≤ l.length := by
  intro l
  induction l with
  | nil => intro le; simp [retry_loop]
  | cons a rest ih =>
    intro le
    rw [retry_loop]
    cases api a with
    | ok r => simp
    | error e =>
      dsimp only
      split
      · simpa using Nat.succ_le_succ (ih (some e))
      · split
        · simpa using Nat.succ_le_succ (ih (some e))
        · simp

/-- C6: the retry wrapper makes at most `max_retries` API calls; with
`max_retries = 3`, two non-rate-limit failures followed by a success return
the success after sleeping 2¹ + 2² seconds, three consecutive failures
re-raise the last underlying error after the same sleeps, and a rate-limit
failure on attempt 1 adds the extra 1·0.5 seconds to the 2¹ backoff. -/
theorem C6_retry_policy :
    (∀ (api : Nat → Except String String) (max_retries : Nat),
        (call_openai_api_with_retry api max_retries).attempts ≤ max_retries) ∧
    (∀ (e1 e2 result : String),
        is_rate_limit_error e1 = false → is_rate_limit_error e2 = false →
        call_openai_api_with_retry
            (fun n => if n = 1 then .error e1 else if n = 2 then .error e2 else .ok result) 3
          = ⟨.ok result, 2^1 + 2^2, 3⟩) ∧
    (∀ (e1 e2 e3 : String),
        is_rate_limit_error e1 = false → is_rate_limit_error e2 = false →
        call_openai_api_with_retry
            (fun n => if n = 1 then .error e1 else if n = 2 then .error e2 else .error e3) 3
          = ⟨.error e3, 2^1 + 2^2, 3⟩) ∧
    (∀ (e1 result : String),
        is_rate_limit_error e1 = true →
        call_openai_api_with_retry
            (fun n => if n = 1 then .error e1 else .ok result) 3
          = ⟨.ok result, 2^1 + 1/2, 2⟩) := by
  refine ⟨?_, ?_, ?_, ?_⟩
  · intro api m
    calc (call_openai_api_with_retry api m).attempts
        ≤ (List.range' 1 m).length := retry_loop_attempts_le api m _ none
      _ = m := by rw [List.length_range']
  · intro e1 e2 r h1 h2
    show retry_loop _ 3 (List.range' 1 3) none = _
    rw [show List.range' 1 3 = [1, 2, 3] from by decide]
    norm_num [retry_loop, h1, h2]
  · intro e1 e2 e3 h1 h2
    show retry_loop _ 3 (List.range' 1 3) none = _
    rw [show List.range' 1 3 = [1, 2, 3] from by decide]
    norm_num [retry_loop, h1, h2]
  · intro e1 r h1
    show retry_loop _ 3 (List.range' 1 3) none = _
    rw [show List.range' 1 3 = [1, 2, 3] from by decide]
    norm_num [retry_loop, h1]

/-- C6 witness: the retry policy at concrete error strings — two timeouts then
success, three consecutive failures, and a rate-limit failure then success. -/
theorem C6_retry_policy_witness :
    call_openai_api_with_retry
        (fun n => if n = 1 then .error "timeout" else if n = 2 then .error "connection error"
          else .ok "hello") 3
      = ⟨.ok "hello", 2^1 + 2^2, 3⟩ ∧
    call_openai_api_with_retry
        (fun n => if n = 1 then .error "timeout" else if n = 2 then .error "connection error"
          else .error "server error") 3
      = ⟨.error "server error", 2^1 + 2^2, 3⟩ ∧
    call_openai_api_with_retry
        (fun n => if n = 1 then .error "Rate limit exceeded" else .ok "hello") 3
      = ⟨.ok "hello", 2^1 + 1/2, 2⟩ :=
  ⟨C6_retry_policy.2.1 "timeout" "connection error" "hello" (by decide) (by decide),
   C6_retry_policy.2.2.1 "timeout" "connection error" "server error" (by decide) (by decide),
   C6_retry_policy.2.2.2 "Rate limit exceeded" "hello" (by decide)⟩

/-- C7: when the external generation call fails on an active conversation,
`process_user_message` returns the `ConversationServiceError` wrapping the
`LLMServiceError`, and the conversation state is exactly the original messages
plus the appended user message — no assistant message is appended. -/
theorem C7_llm_failure_state (all_products : List Product) (user : User) (c : Conversation)
    (user_message : String) (t_user : Nat) (analysis : IntentAnalysis) (e : String)
    (recommendation_limit : Int) (t_assistant : Nat)
    (hactive : c.is_active = true) :
    process_user_message all_products user c user_message t_user analysis
        (.error e) recommendation_limit t_assistant
      = ({ c with messages := c.messages ++ [⟨MessageRole.user, user_message, t_user⟩] },
         .error ("LLM service error: " ++ e)) := by
  rw [process_user_message]
  simp only [Conversation.add_user_message, Conversation.add_message, hactive, if_true]

/-- C7 witness: a failing generation call on the concrete active conversation
leaves exactly the user message appended and surfaces the wrapped error. -/
theorem C7_llm_failure_state_witness :
    process_user_message [] demo_user demo_active "hello" 6
        ⟨"unknown", [], none⟩ (.error "API error") 5 7
      = ({ demo_active with
            messages := demo_active.messages ++ [⟨MessageRole.user, "hello", 6⟩] },
         .error ("LLM service error: " ++ "API error")) :=
  C7_llm_failure_state [] demo_user demo_active "hello" 6
    ⟨"unknown", [], none⟩ "API error" 5 7 (by decide)

/-- C8: constructing a stock record with a negative quantity or reorder level
fails, and every successfully constructed record has a nonnegative quantity,
is `out_of_stock` whenever its quantity is 0, and is `low_stock` whenever its
positive quantity is at most the reorder level and the given status was
`in_stock`. -/
theorem C8_stock_invariants :
    (∀ (status : StockStatus) (quantity reorder_level : Int),
        quantity < 0 ∨ reorder_level < 0 →
        (mk_product_stock_schema status quantity reorder_level).isOk = false) ∧
    (∀ (status : StockStatus) (quantity reorder_level : Int) (st : ProductStockSchema),
        mk_product_stock_schema status quantity reorder_level = .ok st →
        0 ≤ st.quantity ∧
        (st.quantity = 0 → st.status = StockStatus.out_of_stock) ∧
        (0 < st.quantity → st.quantity ≤ st.reorder_level → status = StockStatus.in_stock →
          st.status = StockStatus.low_stock)) := by
  constructor
  · intro status quantity reorder_level h
    rw [mk_product_stock_schema]
    split
    · rfl
    · split
      · rfl
      · exfalso; omega
  · intro status quantity reorder_level st h
    rw [mk_product_stock_schema] at h
    split at h
    · exact absurd h (by simp)
    · split at h
      · exact absurd h (by simp)
      · rename_i hq hr
        simp only [Except.ok.injEq] at h
        subst h
        refine ⟨by show (0:Int) ≤ quantity; omega, ?_, ?_⟩
        · intro h0
          simp only at h0 ⊢
          split
          · rfl
          · rename_i hcond
            split
            · rename_i hcond2
              omega
            · push_neg at hcond
              rcases Classical.em (status = StockStatus.out_of_stock) with he | he
              · exact he
              · exact absurd (hcond h0) (by simp [he])
        · intro hpos hle hin
          simp only at hpos hle ⊢
          split
          · rename_i hcond
            omega
          · split
            · rfl
            · rename_i hc1 hc2
              exact absurd ⟨hpos, hle, hin⟩ hc2

/-- C8 witness: construction at quantity −1 fails, and the record normalized
from `in_stock` with quantity 3 at reorder level 5 satisfies the invariants. -/
theorem C8_stock_invariants_witness :
    (mk_product_stock_schema StockStatus.in_stock (-1) 5).isOk = false ∧
    (0 ≤ demo_low.quantity ∧
      (demo_low.quantity = 0 → demo_low.status = StockStatus.out_of_stock) ∧
      (0 < demo_low.quantity → demo_low.quantity ≤ demo_low.reorder_level →
        StockStatus.in_stock = StockStatus.in_stock →
        demo_low.status = StockStatus.low_stock)) :=
  ⟨C8_stock_invariants.1 StockStatus.in_stock (-1) 5 (Or.inl (by decide)),
   C8_stock_invariants.2 StockStatus.in_stock 3 5 demo_low rfl⟩

theorem filter_flatMap_comm (l : List α) (f : α → List β) (p : β → Bool) :
    (l.flatMap f).filter p = l.flatMap (fun a => (f a).filter p) := by
  induction l with
  | nil => simp
  | cons a rest ih => simp [List.flatMap_cons, List.filter_append, ih]

/-- C9 counterexample: with a one-product catalog, one matching category, and
the explicitly given limit 0, category-filtered retrieval returns the full
(nonempty) list rather than a list truncated to the limit — Python `if limit:`
treats 0 as no limit. -/
theorem C9_counterexample :
    get_products_by_categories [p200] ["electronics"] (some 0) = [p200] ∧
    ¬ ((get_products_by_categories [p200] ["electronics"] (some 0)).length ≤ 0) := by
  decide

/-- C9 (amended): category-filtered retrieval equals the concatenation, in
request order, of the per-category match lists restricted to available
products, with duplicates kept when a product matches several requested
categories; it is truncated to the first `limit` elements when a positive
limit is given, while no limit and a limit of 0 (falsy in Python) both return
the whole list. -/
theorem C9_category_retrieval_amended :
    (∀ (all_products : List Product) (categories : List String),
        get_products_by_categories all_products categories none
          = spec_category_retrieval all_products categories) ∧
    (∀ (all_products : List Product) (categories : List String) (l : Int), 0 < l →
        get_products_by_categories all_products categories (some l)
          = (spec_category_retrieval all_products categories).take l.toNat) ∧
    (∀ (all_products : List Product) (categories : List String),
        get_products_by_categories all_products categories (some 0)
          = spec_category_retrieval all_products categories) ∧
    get_products_by_categories [p200] ["electronics", "electronics"] none = [p200, p200] := by
  have hbase : ∀ (all_products : List Product) (categories : List String),
      (categories.flatMap (fun c => get_products_by_category all_products c)).filter
          Product.is_available
        = spec_category_retrieval all_products categories := by
    intro all cats
    rw [spec_category_retrieval, filter_flatMap_comm]
    simp only [get_products_by_category]
  refine ⟨?_, ?_, ?_, by decide⟩
  · intro all cats
    rw [get_products_by_categories]
    exact hbase all cats
  · intro all cats l hl
    rw [get_products_by_categories]
    simp only [show l ≠ 0 from by omega, if_true, ne_eq, not_false_eq_true, ite_true]
    rw [py_slice_take, if_pos (by omega), hbase all cats]
  · intro all cats
    rw [get_products_by_categories]
    simp only [ne_eq, not_true_eq_false, ite_false]
    exact hbase all cats

/-- C9 witness: the positive-limit truncation applied at limit 1 over a
catalog where the product matches both requested categories. -/
theorem C9_category_retrieval_amended_witness :
    get_products_by_categories [p200] ["electronics", "electronics"] (some 1)
      = (spec_category_retrieval [p200] ["electronics", "electronics"]).take (1:Int).toNat :=
  C9_category_retrieval_amended.2.1 [p200] ["electronics", "electronics"] 1 (by decide)

/-- C10: pairwise similarity scoring is symmetric — the subcategory, brand and
tier comparisons are case-insensitive equalities, the price-band bonus depends
only on the absolute price difference, and the tag bonus depends only on the
intersection of the two tag sets. -/
theorem C10_similarity_symmetric (p1 p2 : Product) :
    calculate_similarity_score p1 p2 = calculate_similarity_score p2 p1 := by
  rw [calculate_similarity_score, calculate_similarity_score,
    show (p1.matches_subcategory p2.subcategory) = (p2.matches_subcategory p1.subcategory) from by
      simp [Product.matches_subcategory, beq_iff_eq, eq_comm],
    show (p1.matches_brand p2.brand) = (p2.matches_brand p1.brand) from by
      simp [Product.matches_brand, beq_iff_eq, eq_comm],
    show (p1.matches_price_tier p2.price_tier) = (p2.matches_price_tier p1.price_tier) from by
      simp [Product.matches_price_tier, eq_comm],
    abs_sub_comm, Finset.inter_comm]

end SalesMate
